import Mathlib

/-!
Shallow embedding of the insightsnexus investigation modules.

Each Python module script is modelled as a pure function from its
command-line target (and an explicit environment recording the outcomes
of its network probes, subprocess calls and clock reads) to the list of
JSON result lines it prints on standard output.  Machine-level details
no claim depends on (Unicode-wide case folding and whitespace classes,
the exact Python rendering of certificate tuples) are modelled at
ASCII / display-string level.
-/

namespace InsightsNexus

/-- A generated report file, as placed in the `files` list of a module's
JSON output: `\x7bname, content, type\x7d`. -/
structure FileArtifact where
  name : String
  content : String
  type : String
  deriving DecidableEq, Repr

/-- The `\x7bnodes, files\x7d` envelope each module serializes as its single
line of standard output. -/
structure ResultEnvelope where
  nodes : List String
  files : List FileArtifact
  deriving DecidableEq, Repr

/-! ### hashDetect.py -/

/-- ASCII whitespace, as matched by Python `str.strip` and the regex
class `\s` (the inputs of interest are ASCII). -/
def isPySpace (c : Char) : Bool :=
  c == ' ' || c == '\t' || c == '\n' || c == '\r' ||
    c == Char.ofNat 11 || c == Char.ofNat 12

/-- Python `str.strip()`: remove leading and trailing whitespace. -/
def pyStrip (cs : List Char) : List Char :=
  ((cs.dropWhile isPySpace).reverse.dropWhile isPySpace).reverse

/-- The alternatives of the first normalization regex of hashDetect.py,
in alternation order: md5, sha1, sha256, sha512, ntlm, lm, bcrypt,
scrypt, pbkdf2. -/
def algNames : List (List Char) :=
  [['m','d','5'], ['s','h','a','1'], ['s','h','a','2','5','6'],
   ['s','h','a','5','1','2'], ['n','t','l','m'], ['l','m'],
   ['b','c','r','y','p','t'], ['s','c','r','y','p','t'],
   ['p','b','k','d','f','2']]

/-- The character class of the regex fragment `[:\s]`. -/
def isColonOrSpace (c : Char) : Bool := c == ':' || isPySpace c

/-- The first `re.sub` of hashDetect.py (anchored at the start, empty
replacement): if the lower-cased input starts with one of the algorithm
names, drop it together with the maximal following run of colons and
whitespace — the regex allows a run of length zero. -/
def stripAlgName (cs : List Char) : List Char :=
  match algNames.find? (fun p => List.isPrefixOf p cs) with
  | some p => (cs.drop p.length).dropWhile isColonOrSpace
  | none => cs

/-- The second `re.sub` of hashDetect.py: delete every colon,
whitespace, hyphen and underscore. -/
def removeSeparators (cs : List Char) : List Char :=
  cs.filter (fun c => !(isColonOrSpace c || c == '-' || c == '_'))

/-- `hash_input = sys.argv[1].strip()` followed by the two `re.sub`
normalization steps, the first applied to `hash_input.lower()`. -/
def hashNormalize (s : String) : List Char :=
  removeSeparators (stripAlgName ((pyStrip s.data).map Char.toLower))

/-- The `hash_patterns` length table of hashDetect.py (`dict.get` with
default `[]`). -/
def hash_patterns (n : Nat) : List String :=
  if n = 32 then ["MD5", "MD4", "MD2", "NTLM", "LM"]
  else if n = 40 then ["SHA1", "RIPEMD-160"]
  else if n = 56 then ["SHA-224"]
  else if n = 64 then ["SHA-256", "SHA3-256", "BLAKE2s-256", "BLAKE2b-256"]
  else if n = 96 then ["SHA-384", "SHA3-384", "BLAKE2b-384"]
  else if n = 128 then ["SHA-512", "SHA3-512", "BLAKE2b-512", "Whirlpool"]
  else if n = 8 then ["CRC32"]
  else if n = 16 then ["CRC64"]
  else if n = 24 then ["DES"]
  else if n = 48 then ["DES-EDE3"]
  else if n = 60 then ["bcrypt"]
  else if n = 86 then ["scrypt"]
  else []

/-- The "Most Likely" fact of hashDetect.py: a curated override for
lengths 32/40/64/128/60, otherwise `possible_types[0]` (that branch is
only reached with a non-empty list, where `headD` is exact). -/
def mostLikelyFact (hash_length : Nat) (possible_types : List String) : String :=
  if hash_length = 32 then "Most Likely: MD5 or NTLM"
  else if hash_length = 40 then "Most Likely: SHA1"
  else if hash_length = 64 then "Most Likely: SHA-256"
  else if hash_length = 128 then "Most Likely: SHA-512"
  else if hash_length = 60 then "Most Likely: bcrypt"
  else "Most Likely: " ++ possible_types.headD ""

/-- The `nodes` list accumulated by hashDetect.py for input `s`. -/
def hashNodes (s : String) : List String :=
  let hash_length := (hashNormalize s).length
  let possible_types := hash_patterns hash_length
  ("Hash Length: " ++ Nat.repr hash_length ++ " characters") ::
    (if possible_types.isEmpty then ["Unknown hash type"]
     else [mostLikelyFact hash_length possible_types])

/-- The standard-output lines printed by hashDetect.py on its
non-exception path: two print sites, guarded by `if not nodes` /
`else`; each prints exactly one JSON envelope. -/
def hashDetectOutput (s : String) : List ResultEnvelope :=
  let nodes := hashNodes s
  if nodes.isEmpty then
    [⟨["Unable to analyze hash: " ++ String.mk (pyStrip s.data)], []⟩]
  else
    [⟨nodes, []⟩]

/-! ### dnsTransfer.py -/

/-- Outcome of the `subprocess.run(['dig', ...])` call: either the
command completed (with a return code and captured stdout/stderr), or
an exception was raised during execution (e.g. a timeout). -/
inductive DigOutcome where
  | completed (returncode : Int) (stdout stderr : String)
  | raised (msg : String)
  deriving DecidableEq, Repr

/-- The 50-character separator line written below each report title. -/
def eqBar : String := String.mk (List.replicate 50 '=')

/-- The report header shared by all three dnsTransfer.py branches. -/
def digHeader (domain : String) : String :=
  "DNS Zone Transfer Report for " ++ domain ++ "\n" ++ eqBar ++ "\n\n" ++
    "Command: dig @" ++ domain ++ " AXFR " ++ domain ++ "\n\n"

/-- File name of the success branch of dnsTransfer.py. -/
def zoneSuccessName (domain : String) (ts : Nat) : String :=
  "zone_transfer_" ++ domain ++ "_" ++ Nat.repr ts ++ ".txt"

/-- File name of the non-zero-return-code branch of dnsTransfer.py. -/
def zoneFailedName (domain : String) (ts : Nat) : String :=
  "zone_transfer_failed_" ++ domain ++ "_" ++ Nat.repr ts ++ ".txt"

/-- File name of the exception branch of dnsTransfer.py. -/
def zoneErrorName (domain : String) (ts : Nat) : String :=
  "zone_transfer_error_" ++ domain ++ "_" ++ Nat.repr ts ++ ".txt"

/-- The standard-output lines printed by dnsTransfer.py: one print site
per branch, `ts` being `int(time.time())` at the print. -/
def dnsTransferOutput (domain : String) (ts : Nat) : DigOutcome → List ResultEnvelope
  | .completed returncode stdout stderr =>
    if returncode == 0 && stdout != "" then
      [⟨[], [⟨zoneSuccessName domain ts,
        digHeader domain ++ "Results:\n" ++ stdout, "text"⟩]⟩]
    else
      [⟨[], [⟨zoneFailedName domain ts,
        digHeader domain ++ "Status: FAILED\n" ++
          "Return Code: " ++ toString returncode ++ "\n" ++
          "Error Output: " ++ stderr ++ "\n" ++
          "Standard Output: " ++ stdout ++ "\n", "text"⟩]⟩]
  | .raised msg =>
    [⟨[], [⟨zoneErrorName domain ts,
      digHeader domain ++ "Status: ERROR\n" ++ "Error: " ++ msg ++ "\n",
      "text"⟩]⟩]

/-! ### domainreport.py -/

/-- The peer-certificate data used by domainreport.py: the four display
fields interpolated into the report, plus the structured issuer RDN
sequence scanned for an organizationName. -/
structure PeerCert where
  subjectStr : String
  issuerStr : String
  notBeforeStr : String
  notAfterStr : String
  issuer : List (List (String × String))
  deriving DecidableEq, Repr

/-- Outcome of the SSL certificate probe. -/
inductive SslOutcome where
  | ok (cert : PeerCert)
  | err (msg : String)
  deriving DecidableEq, Repr

/-- Outcome of the `socket.gethostbyname` probe. -/
inductive DnsOutcome where
  | ok (ip : String)
  | err (msg : String)
  deriving DecidableEq, Repr

/-- Outcome of the `requests.get` probe, with the response headers. -/
inductive HttpOutcome where
  | ok (headers : List (String × String))
  | err (msg : String)
  deriving DecidableEq, Repr

/-- One domainreport.py run's environment: the three probe outcomes in
execution order, and the two clock reads used for the report footer and
the file name. -/
structure DomainEnv where
  ssl : SslOutcome
  dns : DnsOutcome
  http : HttpOutcome
  nowStr : String
  nowTs : Nat
  deriving DecidableEq, Repr

/-- Python truthiness of the optional string variables
(`if resolved_ip:` and the like): set and non-empty. -/
def pyTruthy : Option String → Bool
  | none => false
  | some s => s != ""

/-- The inner loop over one RDN: the first organizationName value, if
any (the loop breaks at the first match). -/
def findOrgName : List (String × String) → Option String
  | [] => none
  | (k, v) :: rest => if k == "organizationName" then some v else findOrgName rest

/-- The nested extraction loop for `ssl_issuer`: scan the RDNs in
order, skipping empty ones; an RDN containing an organizationName
overwrites the accumulator; the outer loop breaks as soon as the
accumulator is truthy. -/
def extractSslIssuer (acc : Option String) :
    List (List (String × String)) → Option String
  | [] => acc
  | item :: rest =>
    if item.isEmpty then extractSslIssuer acc rest
    else
      let found := match findOrgName item with
        | some v => some v
        | none => acc
      if pyTruthy found then found else extractSslIssuer found rest

/-- Lower-casing of a header name (`header.lower()`, ASCII). -/
def lowerStr (s : String) : String := String.mk (s.data.map Char.toLower)

/-- The header names retained by the HTTP section of domainreport.py. -/
def interestingHeaders : List String :=
  ["server", "x-powered-by", "x-frame-options", "content-security-policy"]

/-- The HTTP header loop: accumulates the report lines for retained
headers and tracks `server_header` (the last `Server` value wins). -/
def scanHeaders (acc : String × Option String) :
    List (String × String) → String × Option String
  | [] => acc
  | (h, v) :: rest =>
    if interestingHeaders.contains (lowerStr h) then
      scanHeaders
        (acc.1 ++ h ++ ": " ++ v ++ "\n",
         if lowerStr h == "server" then some v else acc.2) rest
    else scanHeaders acc rest

/-- The SSL section of `report_content`. -/
def sslSectionText : SslOutcome → String
  | .ok cert =>
    "SSL Certificate Details:\n" ++
      "Subject: " ++ cert.subjectStr ++ "\n" ++
      "Issuer: " ++ cert.issuerStr ++ "\n" ++
      "Valid From: " ++ cert.notBeforeStr ++ "\n" ++
      "Valid Until: " ++ cert.notAfterStr ++ "\n\n"
  | .err e => "SSL Certificate Error: " ++ e ++ "\n\n"

/-- The DNS section of `report_content`. -/
def dnsSectionText (domain : String) : DnsOutcome → String
  | .ok ip => "DNS Resolution: " ++ domain ++ " -> " ++ ip ++ "\n\n"
  | .err e => "DNS Resolution Error: " ++ e ++ "\n\n"

/-- The HTTP section of `report_content`. -/
def httpSectionText : HttpOutcome → String
  | .ok headers => "HTTP Headers Analysis:\n" ++ (scanHeaders ("", none) headers).1 ++ "\n"
  | .err e => "HTTP Analysis Error: " ++ e ++ "\n\n"

/-- The full `report_content` of domainreport.py. -/
def domainReportContent (domain : String) (env : DomainEnv) : String :=
  "Domain Intelligence Report for " ++ domain ++ "\n" ++ eqBar ++ "\n\n" ++
    sslSectionText env.ssl ++ dnsSectionText domain env.dns ++
    httpSectionText env.http ++
    "Report Generated: " ++ env.nowStr ++ "\n"

/-- `resolved_ip` after the probes. -/
def resolvedIpOf (env : DomainEnv) : Option String :=
  match env.dns with | .ok ip => some ip | .err _ => none

/-- `ssl_issuer` after the probes. -/
def sslIssuerOf (env : DomainEnv) : Option String :=
  match env.ssl with | .ok cert => extractSslIssuer none cert.issuer | .err _ => none

/-- `server_header` after the probes. -/
def serverHeaderOf (env : DomainEnv) : Option String :=
  match env.http with | .ok headers => (scanHeaders ("", none) headers).2 | .err _ => none

/-- One optional fact appended to `nodes` under a truthiness guard. -/
def optFact (label : String) (v : Option String) : List String :=
  match v with
  | some s => if s != "" then [label ++ s] else []
  | none => []

/-- The `nodes` list of domainreport.py, in the append order of the
source: resolved IP, then SSL issuer, then server header. -/
def domainReportNodes (env : DomainEnv) : List String :=
  optFact "IP Address: " (resolvedIpOf env) ++
    optFact "SSL Issuer: " (sslIssuerOf env) ++
    optFact "Web Server: " (serverHeaderOf env)

/-- File name generated by domainreport.py. -/
def domainIntelName (domain : String) (ts : Nat) : String :=
  "domain_intel_" ++ domain ++ "_" ++ Nat.repr ts ++ ".txt"

/-- The result envelope of domainreport.py. -/
def domainReportEnvelope (domain : String) (env : DomainEnv) : ResultEnvelope :=
  ⟨domainReportNodes env,
   [⟨domainIntelName domain env.nowTs, domainReportContent domain env, "text"⟩]⟩

/-- domainreport.py has a single unconditional print site. -/
def domainReportOutput (domain : String) (env : DomainEnv) : List ResultEnvelope :=
  [domainReportEnvelope domain env]

/-! ### Auxiliary model: invocation events and the spec's fallback rule -/

/-- A module invocation event for the file-name uniqueness claim: two
separate runs (distinct `runId`) may record the same unix second. -/
structure Invocation where
  runId : Nat
  target : String
  ts : Nat
  deriving DecidableEq, Repr

/-- The zone-transfer success file name an invocation generates. -/
def invZoneFileName (inv : Invocation) : String :=
  zoneSuccessName inv.target inv.ts

/-- Stated from the spec's words for the refinement comparison of the
"most likely" table: the fallback rule "first candidate in the length
table's list" (`possible_types[0]`). -/
def specFirstCandidateFact (possible_types : List String) : String :=
  "Most Likely: " ++ possible_types.headD ""

/-- Decimal decoding of a digit string, used to prove that the
timestamp component makes generated file names injective in the
recorded unix second. -/
def decodeDigits (a : Nat) : List Char → Nat
  | [] => a
  | c :: cs => decodeDigits (a * 10 + (c.toNat - 48)) cs

/-! ### Lemmas: decimal rendering of the timestamp is injective -/

lemma toDigitsCore_append (b : Nat) :
    ∀ (f n : Nat) (l : List Char),
      Nat.toDigitsCore b f n l = Nat.toDigitsCore b f n [] ++ l := by
  intro f
  induction f with
  | zero => intro n l; simp [Nat.toDigitsCore]
  | succ f ih =>
    intro n l
    simp only [Nat.toDigitsCore]
    by_cases h : n / b = 0
    · simp [h]
    · simp only [h, if_false]
      rw [ih (n / b) (Nat.digitChar (n % b) :: l),
        ih (n / b) (Nat.digitChar (n % b) :: [])]
      simp

lemma toDigitsCore_fuel (b : Nat) (hb : 2 ≤ b) :
    ∀ (n f g : Nat), n < f → n < g →
      Nat.toDigitsCore b f n [] = Nat.toDigitsCore b g n [] := by
  intro n
  induction n using Nat.strong_induction_on with
  | _ n ih =>
    intro f g hf hg
    cases f with
    | zero => omega
    | succ f =>
      cases g with
      | zero => omega
      | succ g =>
        simp only [Nat.toDigitsCore]
        by_cases h : n / b = 0
        · simp [h]
        · simp only [h, if_false]
          rw [toDigitsCore_append b f, toDigitsCore_append b g]
          have hn : 0 < n := by
            rcases Nat.eq_zero_or_pos n with h0 | h0
            · exact absurd (by simp [h0]) h
            · exact h0
          have hlt : n / b < n := Nat.div_lt_self hn (by omega)
          rw [ih (n / b) hlt f g (by omega) (by omega)]

lemma toDigits_unfold (n : Nat) :
    Nat.toDigits 10 n =
      if n < 10 then [Nat.digitChar n]
      else Nat.toDigits 10 (n / 10) ++ [Nat.digitChar (n % 10)] := by
  by_cases h : n < 10
  · have h0 : n / 10 = 0 := Nat.div_eq_of_lt h
    simp [Nat.toDigits, Nat.toDigitsCore, h0, h, Nat.mod_eq_of_lt h]
  · have h0 : n / 10 ≠ 0 := by omega
    have hn : 0 < n := by omega
    simp only [h, if_false]
    show Nat.toDigitsCore 10 (n + 1) n [] =
      Nat.toDigitsCore 10 (n / 10 + 1) (n / 10) [] ++ [Nat.digitChar (n % 10)]
    rw [show Nat.toDigitsCore 10 (n + 1) n [] =
        Nat.toDigitsCore 10 n (n / 10) [Nat.digitChar (n % 10)] from by
      simp [Nat.toDigitsCore, h0]]
    rw [toDigitsCore_append 10 n]
    rw [toDigitsCore_fuel 10 (by omega) (n / 10) n (n / 10 + 1)
      (Nat.div_lt_self hn (by omega)) (Nat.lt_succ_self _)]

lemma digitChar_decode (d : Nat) (h : d < 10) : (Nat.digitChar d).toNat - 48 = d := by
  interval_cases d <;> decide

lemma decodeDigits_nil (a : Nat) : decodeDigits a [] = a := rfl

lemma decodeDigits_cons (a : Nat) (c : Char) (cs : List Char) :
    decodeDigits a (c :: cs) = decodeDigits (a * 10 + (c.toNat - 48)) cs := rfl

lemma decodeDigits_append (l1 : List Char) :
    ∀ (a : Nat) (l2 : List Char),
      decodeDigits a (l1 ++ l2) = decodeDigits (decodeDigits a l1) l2 := by
  induction l1 with
  | nil => intro a l2; rfl
  | cons c cs ih =>
    intro a l2
    rw [List.cons_append, decodeDigits_cons, decodeDigits_cons, ih]

lemma decode_toDigits (n : Nat) :
    ∀ a : Nat,
      decodeDigits a (Nat.toDigits 10 n) =
        a * 10 ^ (Nat.toDigits 10 n).length + n := by
  induction n using Nat.strong_induction_on with
  | _ n ih =>
    intro a
    rw [toDigits_unfold n]
    by_cases h : n < 10
    · simp only [h, if_true, ite_true, decodeDigits_cons, decodeDigits_nil,
        digitChar_decode n h, List.length_cons, List.length_nil]
      norm_num
    · have hn : 0 < n := by omega
      have hlt : n / 10 < n := Nat.div_lt_self hn (by omega)
      simp only [h, if_false, decodeDigits_append, List.length_append,
        List.length_cons, List.length_nil]
      rw [ih (n / 10) hlt a]
      simp only [decodeDigits_cons, decodeDigits_nil]
      have hmod : n % 10 < 10 := Nat.mod_lt _ (by omega)
      rw [digitChar_decode _ hmod]
      have hdm : 10 * (n / 10) + n % 10 = n := Nat.div_add_mod n 10
      ring_nf
      omega

lemma toDigits_injective (m n : Nat) (h : Nat.toDigits 10 m = Nat.toDigits 10 n) :
    m = n := by
  have hm := decode_toDigits m 0
  have hn := decode_toDigits n 0
  rw [h] at hm
  simp only [Nat.zero_mul, Nat.zero_add] at hm hn
  omega

lemma nat_repr_injective (m n : Nat) (h : Nat.repr m = Nat.repr n) : m = n := by
  apply toDigits_injective
  have hd := congrArg String.data h
  simpa [Nat.repr, List.asString] using hd

lemma affix_repr_injective (pre suf : String) (m n : Nat)
    (h : pre ++ Nat.repr m ++ suf = pre ++ Nat.repr n ++ suf) : m = n := by
  apply nat_repr_injective
  have hd := congrArg String.data h
  simp only [String.data_append, List.append_assoc] at hd
  have h1 := List.append_cancel_left hd
  have h2 := List.append_cancel_right h1
  exact String.ext h2

lemma hashNodes_of_length (s : String) (n : Nat)
    (h : (hashNormalize s).length = n) :
    hashNodes s =
      ("Hash Length: " ++ Nat.repr n ++ " characters") ::
        (if (hash_patterns n).isEmpty then ["Unknown hash type"]
         else [mostLikelyFact n (hash_patterns n)]) := by
  simp only [hashNodes, h]

/-! ### Claim theorems -/

/-- C1: for every target given as the sole argument, each of the three
modules (hash classifier, zone transfer, domain intelligence) prints
exactly one JSON line on standard output — never zero, never more than
one, on every success and every error path — and that line is a
`ResultEnvelope`: a `nodes` list of strings and a `files` list of
name/content/type artifacts. -/
theorem c1_single_output_line :
    (∀ s : String, (hashDetectOutput s).length = 1) ∧
    (∀ (domain : String) (ts : Nat) (o : DigOutcome),
      (dnsTransferOutput domain ts o).length = 1) ∧
    (∀ (domain : String) (env : DomainEnv),
      (domainReportOutput domain env).length = 1) := by
  refine ⟨fun s => ?_, fun domain ts o => ?_, fun domain env => rfl⟩
  · simp only [hashDetectOutput]
    split <;> rfl
  · cases o with
    | completed rc out errOut =>
      simp only [dnsTransferOutput]
      split <;> rfl
    | raised msg => rfl

/-- C2: the hash classifier is a pure function of its input; whenever
the normalized form has length 32 the emitted "most likely" fact is
exactly "Most Likely: MD5 or NTLM", and correspondingly SHA1 at
length 40, SHA-256 at 64, SHA-512 at 128, bcrypt at 60. -/
theorem c2_curated_most_likely (s : String) :
    ((hashNormalize s).length = 32 →
      hashNodes s = ["Hash Length: 32 characters", "Most Likely: MD5 or NTLM"]) ∧
    ((hashNormalize s).length = 40 →
      hashNodes s = ["Hash Length: 40 characters", "Most Likely: SHA1"]) ∧
    ((hashNormalize s).length = 64 →
      hashNodes s = ["Hash Length: 64 characters", "Most Likely: SHA-256"]) ∧
    ((hashNormalize s).length = 128 →
      hashNodes s = ["Hash Length: 128 characters", "Most Likely: SHA-512"]) ∧
    ((hashNormalize s).length = 60 →
      hashNodes s = ["Hash Length: 60 characters", "Most Likely: bcrypt"]) :=
  ⟨fun h => (hashNodes_of_length s _ h).trans (by decide),
   fun h => (hashNodes_of_length s _ h).trans (by decide),
   fun h => (hashNodes_of_length s _ h).trans (by decide),
   fun h => (hashNodes_of_length s _ h).trans (by decide),
   fun h => (hashNodes_of_length s _ h).trans (by decide)⟩

set_option maxRecDepth 100000 in
/-- Witness for C2: concrete inputs of normalized length 32, 40, 64,
128 and 60. -/
theorem c2_witness :
    hashNodes "5d41402abc4b2a76b9719d911017c592" =
      ["Hash Length: 32 characters", "Most Likely: MD5 or NTLM"] ∧
    hashNodes "aaaaaaaaaaaaaaaaaaaaaaaaaaaaaaaaaaaaaaaa" =
      ["Hash Length: 40 characters", "Most Likely: SHA1"] ∧
    hashNodes "aaaaaaaaaaaaaaaaaaaaaaaaaaaaaaaaaaaaaaaaaaaaaaaaaaaaaaaaaaaaaaaa" =
      ["Hash Length: 64 characters", "Most Likely: SHA-256"] ∧
    hashNodes "aaaaaaaaaaaaaaaaaaaaaaaaaaaaaaaaaaaaaaaaaaaaaaaaaaaaaaaaaaaaaaaaaaaaaaaaaaaaaaaaaaaaaaaaaaaaaaaaaaaaaaaaaaaaaaaaaaaaaaaaaaaaaaaa" =
      ["Hash Length: 128 characters", "Most Likely: SHA-512"] ∧
    hashNodes "aaaaaaaaaaaaaaaaaaaaaaaaaaaaaaaaaaaaaaaaaaaaaaaaaaaaaaaaaaaa" =
      ["Hash Length: 60 characters", "Most Likely: bcrypt"] :=
  ⟨(c2_curated_most_likely _).1 (by decide),
   (c2_curated_most_likely _).2.1 (by decide),
   (c2_curated_most_likely _).2.2.1 (by decide),
   (c2_curated_most_likely _).2.2.2.1 (by decide),
   (c2_curated_most_likely _).2.2.2.2 (by decide)⟩

/-- C3: when all three domain-intelligence probes fail, the module
still emits an envelope with empty `nodes` and exactly one artifact,
whose content carries an error section for each of the three probes. -/
theorem c3_all_probes_fail (domain e1 e2 e3 nowStr : String) (ts : Nat) :
    domainReportEnvelope domain ⟨.err e1, .err e2, .err e3, nowStr, ts⟩ =
      ⟨[], [⟨domainIntelName domain ts,
        "Domain Intelligence Report for " ++ domain ++ "\n" ++ eqBar ++ "\n\n" ++
          ("SSL Certificate Error: " ++ e1 ++ "\n\n") ++
          ("DNS Resolution Error: " ++ e2 ++ "\n\n") ++
          ("HTTP Analysis Error: " ++ e3 ++ "\n\n") ++
          "Report Generated: " ++ nowStr ++ "\n", "text"⟩]⟩ := rfl

/-- C4: the zone-transfer module always yields exactly one artifact,
with three mutually exclusive outcomes: success (`returncode = 0` and
non-empty stdout) gives a `zone_transfer_` name and a report embedding
the raw output; a failed run gives a `zone_transfer_failed_` name with
return code, stderr and stdout; an exception gives a
`zone_transfer_error_` name with the exception message. -/
theorem c4_zone_transfer_outcomes (domain stdout stderr msg : String)
    (rc : Int) (ts : Nat) :
    (rc = 0 → stdout ≠ "" →
      dnsTransferOutput domain ts (.completed rc stdout stderr) =
        [⟨[], [⟨zoneSuccessName domain ts,
          digHeader domain ++ "Results:\n" ++ stdout, "text"⟩]⟩]) ∧
    (¬ (rc = 0 ∧ stdout ≠ "") →
      dnsTransferOutput domain ts (.completed rc stdout stderr) =
        [⟨[], [⟨zoneFailedName domain ts,
          digHeader domain ++ "Status: FAILED\n" ++
            "Return Code: " ++ toString rc ++ "\n" ++
            "Error Output: " ++ stderr ++ "\n" ++
            "Standard Output: " ++ stdout ++ "\n", "text"⟩]⟩]) ∧
    (dnsTransferOutput domain ts (.raised msg) =
      [⟨[], [⟨zoneErrorName domain ts,
        digHeader domain ++ "Status: ERROR\n" ++ "Error: " ++ msg ++ "\n",
        "text"⟩]⟩]) := by
  refine ⟨fun h1 h2 => ?_, fun h => ?_, rfl⟩
  · simp [dnsTransferOutput, h1, h2]
  · by_cases h0 : rc = 0
    · have hs : stdout = "" := by
        by_contra hne
        exact h ⟨h0, hne⟩
      subst hs
      simp [dnsTransferOutput, h0]
    · simp [dnsTransferOutput, h0]

/-- Witness for C4: the three outcomes at concrete inputs. -/
theorem c4_witness :
    dnsTransferOutput "example.com" 100 (.completed 0 "zone data" "") =
      [⟨[], [⟨zoneSuccessName "example.com" 100,
        digHeader "example.com" ++ "Results:\n" ++ "zone data", "text"⟩]⟩] ∧
    dnsTransferOutput "example.com" 100 (.completed 9 "" "refused") =
      [⟨[], [⟨zoneFailedName "example.com" 100,
        digHeader "example.com" ++ "Status: FAILED\n" ++
          "Return Code: " ++ toString (9 : Int) ++ "\n" ++
          "Error Output: " ++ "refused" ++ "\n" ++
          "Standard Output: " ++ "" ++ "\n", "text"⟩]⟩] ∧
    dnsTransferOutput "example.com" 100 (.raised "timed out") =
      [⟨[], [⟨zoneErrorName "example.com" 100,
        digHeader "example.com" ++ "Status: ERROR\n" ++
          "Error: " ++ "timed out" ++ "\n", "text"⟩]⟩] :=
  ⟨(c4_zone_transfer_outcomes "example.com" "zone data" "" "timed out" 0 100).1
      rfl (by decide),
   (c4_zone_transfer_outcomes "example.com" "" "refused" "timed out" 9 100).2.1
      (by decide),
   (c4_zone_transfer_outcomes "example.com" "" "refused" "timed out" 9 100).2.2⟩

/-- Environment for the C5 counterexample: all three probes succeed
with truthy key facts. -/
def c5Env : DomainEnv :=
  ⟨.ok ⟨"subj", "issuerRepr", "nb", "na", [[("organizationName", "CertOrg")]]⟩,
   .ok "1.2.3.4", .ok [("Server", "nginx")], "now", 0⟩

/-- C5 counterexample: with every probe successful, the DNS fact
("IP Address: ...") precedes the SSL probe's fact ("SSL Issuer: ...")
in `nodes`, although the SSL probe executes first — so the fact order
does not match probe execution order. -/
theorem c5_counterexample :
    (domainReportEnvelope "example.com" c5Env).nodes =
      ["IP Address: 1.2.3.4", "SSL Issuer: CertOrg", "Web Server: nginx"] ∧
    ¬ ((domainReportEnvelope "example.com" c5Env).nodes.indexOf
          "SSL Issuer: CertOrg" <
        (domainReportEnvelope "example.com" c5Env).nodes.indexOf
          "IP Address: 1.2.3.4") := by
  decide

/-- C5 amended: whenever the DNS and SSL facts are both truthy, the
DNS fact ("IP Address: ...") precedes the SSL fact ("SSL Issuer: ...")
in `nodes`, whatever the HTTP probe did: `nodes` is ordered as the
source appends the facts — resolved IP first, then SSL issuer, then
whatever the web-server fact contributes — not in probe execution
order. -/
theorem c5_amended (domain : String) (env : DomainEnv) (ip issuer : String)
    (hip : resolvedIpOf env = some ip) (hipT : ip ≠ "")
    (hiss : sslIssuerOf env = some issuer) (hissT : issuer ≠ "") :
    (domainReportEnvelope domain env).nodes =
      ["IP Address: " ++ ip, "SSL Issuer: " ++ issuer] ++
        optFact "Web Server: " (serverHeaderOf env) := by
  simp [domainReportEnvelope, domainReportNodes, hip, hiss, hipT, hissT,
    optFact]

/-- Environment for the C5 witness: SSL and DNS succeed with truthy
facts while the HTTP probe fails. -/
def c5HttpFailEnv : DomainEnv :=
  ⟨.ok ⟨"subj", "issuerRepr", "nb", "na", [[("organizationName", "CertOrg")]]⟩,
   .ok "1.2.3.4", .err "unreachable", "now", 0⟩

/-- Witness for C5 amended, at an environment whose HTTP probe fails. -/
theorem c5_witness :
    (domainReportEnvelope "example.com" c5HttpFailEnv).nodes =
      ["IP Address: " ++ "1.2.3.4", "SSL Issuer: " ++ "CertOrg"] ++
        optFact "Web Server: " (serverHeaderOf c5HttpFailEnv) :=
  c5_amended "example.com" c5HttpFailEnv "1.2.3.4" "CertOrg"
    (by decide) (by decide) (by decide) (by decide)

set_option maxRecDepth 100000 in
/-- C6: normalization makes the classifier insensitive to a recognized
algorithm-name marker and separators: the spec's two example inputs
normalize to the same length-32 form and yield identical facts. -/
theorem c6_normalization_example :
    hashNormalize "MD5:5d41402abc4b2a76b9719d911017c592" =
      hashNormalize "5d41402abc4b2a76b9719d911017c592" ∧
    (hashNormalize "MD5:5d41402abc4b2a76b9719d911017c592").length = 32 ∧
    hashNodes "MD5:5d41402abc4b2a76b9719d911017c592" =
      hashNodes "5d41402abc4b2a76b9719d911017c592" :=
  ⟨by decide, by decide, by decide⟩

/-- C7 counterexample: "md5ab" begins with the recognized algorithm
name "md5" not followed by a colon or whitespace; the claim requires
the marker to be kept (normalized length 5), but the code strips it:
the normalized form is "ab", of length 2. -/
theorem c7_counterexample :
    hashNormalize "md5ab" = ['a', 'b'] ∧
    (hashNormalize "md5ab").length ≠ 5 := by
  decide

/-- C7 amended: a recognized algorithm name at the start of the
lower-cased input is stripped regardless of what follows it — the
regex accepts an empty run after the name — together with the maximal
following run of colons and whitespace. -/
theorem c7_amended :
    (∀ rest : List Char, stripAlgName (['m','d','5'] ++ rest) =
      rest.dropWhile isColonOrSpace) ∧
    (∀ rest : List Char, stripAlgName (['s','h','a','1'] ++ rest) =
      rest.dropWhile isColonOrSpace) ∧
    (∀ rest : List Char, stripAlgName (['s','h','a','2','5','6'] ++ rest) =
      rest.dropWhile isColonOrSpace) ∧
    (∀ rest : List Char, stripAlgName (['s','h','a','5','1','2'] ++ rest) =
      rest.dropWhile isColonOrSpace) ∧
    (∀ rest : List Char, stripAlgName (['n','t','l','m'] ++ rest) =
      rest.dropWhile isColonOrSpace) ∧
    (∀ rest : List Char, stripAlgName (['l','m'] ++ rest) =
      rest.dropWhile isColonOrSpace) ∧
    (∀ rest : List Char, stripAlgName (['b','c','r','y','p','t'] ++ rest) =
      rest.dropWhile isColonOrSpace) ∧
    (∀ rest : List Char, stripAlgName (['s','c','r','y','p','t'] ++ rest) =
      rest.dropWhile isColonOrSpace) ∧
    (∀ rest : List Char, stripAlgName (['p','b','k','d','f','2'] ++ rest) =
      rest.dropWhile isColonOrSpace) := by
  refine ⟨fun rest => ?_, fun rest => ?_, fun rest => ?_, fun rest => ?_,
    fun rest => ?_, fun rest => ?_, fun rest => ?_, fun rest => ?_,
    fun rest => ?_⟩ <;>
  simp [stripAlgName, algNames, List.isPrefixOf]

/-- C8 counterexample: at the ambiguous length 40 the curated fact
coincides with the first-candidate fallback — the claimed divergence at
each of 32/40/64/128/60 fails (it also fails at 64, 128 and 60). -/
theorem c8_counterexample :
    mostLikelyFact 40 (hash_patterns 40) =
      specFirstCandidateFact (hash_patterns 40) := by
  decide

/-- C8 amended: the curated "most likely" table diverges from the
fallback rule "first candidate in the length table's list" exactly at
length 32 ("MD5 or NTLM" against "MD5"); at every other length,
including the ambiguous 40/64/128/60, the two coincide. -/
theorem c8_amended :
    mostLikelyFact 32 (hash_patterns 32) ≠
      specFirstCandidateFact (hash_patterns 32) ∧
    ∀ n : Nat, n ≠ 32 →
      mostLikelyFact n (hash_patterns n) =
        specFirstCandidateFact (hash_patterns n) := by
  refine ⟨by decide, fun n hn => ?_⟩
  by_cases h40 : n = 40
  · subst h40; decide
  by_cases h64 : n = 64
  · subst h64; decide
  by_cases h128 : n = 128
  · subst h128; decide
  by_cases h60 : n = 60
  · subst h60; decide
  simp [mostLikelyFact, specFirstCandidateFact, hn, h40, h64, h128, h60]

/-- Witness for C8 amended, at the unambiguous length 56. -/
theorem c8_witness :
    mostLikelyFact 56 (hash_patterns 56) =
      specFirstCandidateFact (hash_patterns 56) :=
  c8_amended.2 56 (by decide)

/-- C9 counterexample: two distinct invocations (different run ids)
against the same target in the same unix second generate the same file
name — uniqueness across repeated runs fails. -/
theorem c9_counterexample :
    (⟨1, "example.com", 1700000000⟩ : Invocation) ≠
      ⟨2, "example.com", 1700000000⟩ ∧
    invZoneFileName ⟨1, "example.com", 1700000000⟩ =
      invZoneFileName ⟨2, "example.com", 1700000000⟩ :=
  ⟨by decide, rfl⟩

/-- C9 amended: artifact names follow the pattern
module-prefix, target, unix timestamp, ".txt" (with failed/error
variants), and two runs against the same target receive different
names whenever their recorded unix seconds differ; runs falling in the
same second collide. -/
theorem c9_amended (target : String) (ts1 ts2 : Nat) (h : ts1 ≠ ts2) :
    zoneSuccessName target ts1 =
      "zone_transfer_" ++ target ++ "_" ++ Nat.repr ts1 ++ ".txt" ∧
    zoneSuccessName target ts1 ≠ zoneSuccessName target ts2 ∧
    zoneFailedName target ts1 ≠ zoneFailedName target ts2 ∧
    zoneErrorName target ts1 ≠ zoneErrorName target ts2 ∧
    domainIntelName target ts1 ≠ domainIntelName target ts2 := by
  refine ⟨rfl, fun hc => h ?_, fun hc => h ?_, fun hc => h ?_, fun hc => h ?_⟩
  · exact affix_repr_injective ("zone_transfer_" ++ target ++ "_") ".txt"
      ts1 ts2 hc
  · exact affix_repr_injective ("zone_transfer_failed_" ++ target ++ "_") ".txt"
      ts1 ts2 hc
  · exact affix_repr_injective ("zone_transfer_error_" ++ target ++ "_") ".txt"
      ts1 ts2 hc
  · exact affix_repr_injective ("domain_intel_" ++ target ++ "_") ".txt"
      ts1 ts2 hc

/-- Witness for C9 amended: two runs one second apart get distinct
names. -/
theorem c9_witness :
    zoneSuccessName "example.com" 100 =
      "zone_transfer_" ++ "example.com" ++ "_" ++ Nat.repr 100 ++ ".txt" ∧
    zoneSuccessName "example.com" 100 ≠ zoneSuccessName "example.com" 101 ∧
    zoneFailedName "example.com" 100 ≠ zoneFailedName "example.com" 101 ∧
    zoneErrorName "example.com" 100 ≠ zoneErrorName "example.com" 101 ∧
    domainIntelName "example.com" 100 ≠ domainIntelName "example.com" 101 :=
  c9_amended "example.com" 100 101 (by decide)

/-- C10: on the hash classifier's non-exception path the fallback
"Unable to analyze hash" branch guarded by `if not nodes` is
unreachable — the length fact is appended unconditionally before the
guard, so `nodes` is non-empty for every input and the printed envelope
is always the accumulated one. -/
theorem c10_fallback_unreachable (s : String) :
    hashNodes s ≠ [] ∧ hashDetectOutput s = [⟨hashNodes s, []⟩] := by
  constructor
  · simp [hashNodes]
  · have hne : (hashNodes s).isEmpty = false := by simp [hashNodes]
    simp [hashDetectOutput, hne]

end InsightsNexus
